import Mathlib

/-!
Verification development for the `cli_wrapper` repository.

This file gives a shallow embedding in Lean of the parts of the code that the
specification talks about:

* `src/cli_wrapper/configuration.py` — the configuration merge engine
  (`_merge_dicts`, `build_config_file`);
* `src/cli_wrapper/code_runners.py` — the execution harness
  (`make_script_globals`, `wrap_with_shell_command`'s wait loop, `run_script`).

Python values parsed from JSON/YAML documents are modelled by the inductive
type `Json` (numbers are modelled as integers, which suffices for every
property considered here).  Python dicts are modelled as association lists in
insertion order; keys of dicts produced by the JSON/YAML parsers are unique,
and every lemma proved below holds for arbitrary association lists.
File-system and process-level effects (opening files, parsing, writing the
well-known config file, waiting on a child process, POSIX signals) are
modelled by explicit data: a config source carries the parse outcome the
relevant parser would produce for it, and the functions return the list of
writes / calls they would perform instead of performing them.
-/

set_option autoImplicit false

/-- A JSON/YAML value as produced by `json.load` / `yaml.safe_load`:
`null`, booleans, numbers (modelled as integers), strings, arrays and
objects.  Objects are association lists in insertion order, mirroring
Python dicts. -/
inductive Json where
  | null
  | bool (b : Bool)
  | num (n : Int)
  | str (s : String)
  | arr (elems : List Json)
  | obj (entries : List (String × Json))

namespace Json

/-- Python dict lookup `d[k]` on an association list: the first entry whose
key equals `k`, or `none` (Python raises `KeyError`) when there is none. -/
def lookup (entries : List (String × Json)) (k : String) : Option Json :=
  match entries with
  | [] => none
  | (k', v) :: rest => if k' = k then some v else lookup rest k

/-- The list of keys of a `Json` value: the keys of an object in insertion
order, and `[]` for any non-object value. -/
def keys : Json → List String
  | .obj entries => entries.map Prod.fst
  | _ => []

end Json

mutual

/-- Embedding of `_merge_dicts(obj, update)` from
`src/cli_wrapper/configuration.py`.  If either argument is not a dict the
update is returned unchanged; otherwise the result dict is built from the
entries of `obj`, recursively merging `update[key]` on top when that lookup
succeeds and keeping the base value when it raises `KeyError`. -/
def _merge_dicts : Json → Json → Json
  | .obj entries, .obj updEntries => .obj (_merge_entries entries updEntries)
  | _, update => update

/-- The `for key, value in obj.items()` loop inside `_merge_dicts`, acting on
the base dict's entry list. -/
def _merge_entries : List (String × Json) → List (String × Json) → List (String × Json)
  | [], _ => []
  | (k, v) :: rest, updEntries =>
    (k, match Json.lookup updEntries k with
        | some uv => _merge_dicts v uv
        | none => v) :: _merge_entries rest updEntries

end

/-- Outcome of opening and parsing one configuration file: the file may be
missing (`path.open` raises `FileNotFoundError`), present but rejected by the
parser the extension selects (`json.load` / `yaml.safe_load` raises), or
parsed into a value. -/
inductive FileContent where
  | missing
  | malformed
  | parses (value : Json)

/-- One configuration source passed to `build_config_file`: its path string,
its extension as `pathlib.Path.suffix` reports it (for example `".json"`),
and what opening/parsing it yields. -/
structure SourceFile where
  path : String
  suffix : String
  content : FileContent

/-- The errors `build_config_file` can raise while processing a source:
`FileNotFoundError` from `path.open`, a parse error from
`json.load`/`yaml.safe_load`, or the `ValueError` raised for an
unrecognized extension. -/
inductive ConfigError where
  | fileNotFound (path : String)
  | parseError (path : String)
  | valueError (msg : String)
  deriving Repr, DecidableEq

/-- The message of the `ValueError` raised for an unrecognized extension:
`f"Configuration file suffix should be .json, .yml, or .yaml, not {path.suffix!r}"`
(Python `repr` of a plain string wraps it in single quotes). -/
def suffixErrorMsg (suffix : String) : String :=
  "Configuration file suffix should be .json, .yml, or .yaml, not '" ++ suffix ++ "'"

/-- One iteration of the `for file in filenames` loop of `build_config_file`:
open the file (observing a missing file first, as `path.open` runs before the
extension is inspected), dispatch on the extension, parse, and merge the
parsed value on top of the accumulator. -/
def buildStep (obj : Json) (f : SourceFile) : Except ConfigError Json :=
  match f.content with
  | .missing => .error (.fileNotFound f.path)
  | .malformed =>
    if f.suffix = ".json" then .error (.parseError f.path)
    else if f.suffix = ".yaml" ∨ f.suffix = ".yml" then .error (.parseError f.path)
    else .error (.valueError (suffixErrorMsg f.suffix))
  | .parses v =>
    if f.suffix = ".json" then .ok (_merge_dicts obj v)
    else if f.suffix = ".yaml" ∨ f.suffix = ".yml" then .ok (_merge_dicts obj v)
    else .error (.valueError (suffixErrorMsg f.suffix))

/-- The whole `for` loop of `build_config_file`, threading the accumulator
`obj` through the sources in the order given. -/
def buildLoop (obj : Json) : List SourceFile → Except ConfigError Json
  | [] => .ok obj
  | f :: rest =>
    match buildStep obj f with
    | .ok obj' => buildLoop obj' rest
    | .error e => .error e

/-- Embedding of `build_config_file(*filenames)`: start from the empty dict
and fold every source through the loop; the merged value is returned on
success. -/
def build_config_file (files : List SourceFile) : Except ConfigError Json :=
  buildLoop (Json.obj []) files

/-- The writes `build_config_file` performs to `ROOT_CONFIG_FILE`: the
`json.dump` sits after the loop, so exactly the merged value is written when
the loop completes and nothing is written when it raises. -/
def configWrites (files : List SourceFile) : List Json :=
  match buildLoop (Json.obj []) files with
  | .ok obj => [obj]
  | .error _ => []

/-- A `pathlib.Path`, modelled abstractly by its observable attributes: the
path string itself, the string `str(path.resolve())` the operating system
would resolve it to, and `path.stem` (the final component without its
suffix).  `pathlib` is external library code, so these attributes are taken
as given rather than recomputed. -/
structure PyPath where
  str : String
  resolvedStr : String
  stem : String

/-- Python dict item assignment `d[k] = v` on an association list: replace
the value at an existing key in place, otherwise append the new entry. -/
def dictSet (d : List (String × Json)) (k : String) (v : Json) : List (String × Json) :=
  if d.any (fun e => e.1 = k) then
    d.map (fun e => if e.1 = k then (e.1, v) else e)
  else
    d ++ [(k, v)]

/-- Python `G.update(kwargs)`: item-assign every entry of `kwargs` into `G`
in order. -/
def dictUpdate (d : List (String × Json)) (kwargs : List (String × Json)) :
    List (String × Json) :=
  kwargs.foldl (fun acc e => dictSet acc e.1 e.2) d

/-- Embedding of `make_script_globals(script, name="__main__", **kwargs)`
from `src/cli_wrapper/code_runners.py`: build the dict of the four standard
globals and then `update` it with the keyword arguments. -/
def make_script_globals (script : PyPath) (name : String := "__main__")
    (kwargs : List (String × Json) := []) : List (String × Json) :=
  dictUpdate
    [("__file__", .str script.resolvedStr),
     ("__name__", .str name),
     ("__package__", .null),
     ("__cached__", .null)]
    kwargs

/-- The POSIX interrupt signal number, `signal.SIGINT`. -/
def SIGINT : Nat := 2

/-- What the parent observes during one `process.wait()` call inside
`wrap_with_shell_command`'s wait loop: either a `KeyboardInterrupt` is
delivered to the parent, or the call returns because the child exited with
the given status code. -/
inductive WaitEvent where
  | interrupt
  | childExit (code : Int)
  deriving Repr, DecidableEq

/-- Whether a wait event is the child exiting. -/
def WaitEvent.isChildExit : WaitEvent → Bool
  | .childExit _ => true
  | .interrupt => false

/-- The observable outcome of the wait loop: the signals the parent sent to
the child (in order), and the parent's own exit status — `none` while the
loop is still blocked in `process.wait()` with no further events. -/
structure WaitOutcome where
  sentSignals : List Nat
  parentExit : Option Nat
  deriving Repr, DecidableEq

/-- Embedding of the `while True` wait loop of `wrap_with_shell_command` in
`src/cli_wrapper/code_runners.py`, driven by the sequence of events the
parent observes: on `KeyboardInterrupt` the parent sends `SIGINT` to the
child and re-enters the wait; when `process.wait()` returns it calls
`exit(0)`.  `sent` accumulates the signals forwarded so far. -/
def wait_loop (sent : List Nat) : List WaitEvent → WaitOutcome
  | [] => ⟨sent, none⟩
  | .interrupt :: rest => wait_loop (sent ++ [SIGINT]) rest
  | .childExit _ :: _ => ⟨sent, some 0⟩

/-- Embedding of `wrap_with_shell_command`'s behaviour after spawning the
child: the wait loop starting with no signals sent. -/
def wrap_with_shell_command (events : List WaitEvent) : WaitOutcome :=
  wait_loop [] events

/-- The number of interrupts the parent observes before the child's exit
(they are all the interrupts the parent receives while the child is alive). -/
def interruptsBeforeExit : List WaitEvent → Nat
  | [] => 0
  | .interrupt :: rest => interruptsBeforeExit rest + 1
  | .childExit _ :: _ => 0

/-- The two `runpy` runners `run_script` can dispatch to. -/
inductive Runner where
  | runModule
  | runPath
  deriving Repr, DecidableEq

/-- The single runner invocation `run_script` performs: which `runpy`
function is called, the string argument passed to it, the `init_globals`
mapping, the `run_name`, and where (and with which mode) standard output and
standard error are redirected, if anywhere. -/
structure RunCall where
  runner : Runner
  arg : String
  initGlobals : List (String × Json)
  runName : String
  redirect : Option (String × String)

/-- Embedding of `run_script(script, globals, outfile, write_mode="w",
as_module=True)` from `src/cli_wrapper/code_runners.py`: the runner is
`runpy.run_module` when `as_module` is set and `runpy.run_path` otherwise; with an
output file the runner gets `script.stem` under redirection, without one it
gets `str(script.resolve())`; both branches pass `init_globals=globals` and
`run_name="__main__"`. -/
def run_script (script : PyPath) (globals : List (String × Json))
    (outfile : Option PyPath) (write_mode : String := "w")
    (as_module : Bool := true) : RunCall :=
  let runner := if as_module then Runner.runModule else Runner.runPath
  match outfile with
  | some f => ⟨runner, script.stem, globals, "__main__", some (f.str, write_mode)⟩
  | none => ⟨runner, script.resolvedStr, globals, "__main__", none⟩

/-- The extensions `build_config_file` recognizes. -/
def recognizedSuffix (s : String) : Prop :=
  s = ".json" ∨ s = ".yaml" ∨ s = ".yml"

instance (s : String) : Decidable (recognizedSuffix s) := by
  unfold recognizedSuffix; infer_instance

/-- A source that `build_config_file` processes without error and whose
document parses to a mapping (a JSON/YAML object). -/
def parsesToMapping (f : SourceFile) : Prop :=
  recognizedSuffix f.suffix ∧ ∃ entries, f.content = FileContent.parses (Json.obj entries)

/-- A source that `build_config_file` processes without error: its file is
present, its extension is recognized, and its document parses. -/
def mergeable (f : SourceFile) : Prop :=
  recognizedSuffix f.suffix ∧ ∃ v, f.content = FileContent.parses v

/-- The merged configuration's value at key `k`: `some (some v)` / `some none`
when the merge succeeds with an object having / lacking `k`, and `none` when
the merge fails or does not produce an object. -/
def mergedLookup (files : List SourceFile) (k : String) : Option (Option Json) :=
  match build_config_file files with
  | .ok (.obj entries) => some (Json.lookup entries k)
  | _ => none

/-- The value assigned by the last occurrence of key `k` in an entry list —
what `k` ends up bound to after item-assigning the entries in order. -/
def lastLookup (entries : List (String × Json)) (k : String) : Option Json :=
  match entries with
  | [] => none
  | (k', v) :: rest =>
    match lastLookup rest k with
    | some w => some w
    | none => if k' = k then some v else none

/-- Whether `p` is an initial segment of `l` (on character lists). -/
def isPrefixChars (p l : List Char) : Bool :=
  match p, l with
  | [], _ => true
  | _ :: _, [] => false
  | c :: cs, d :: ds => c = d && isPrefixChars cs ds

/-- Whether `p` occurs as a contiguous segment of `l` — used to state whether
one string mentions another. -/
def occursInChars (p l : List Char) : Bool :=
  match l with
  | [] => p.isEmpty
  | _ :: rest => isPrefixChars p l || occursInChars p rest

theorem _merge_entries_keys (e u : List (String × Json)) :
    (_merge_entries e u).map Prod.fst = e.map Prod.fst := by
  induction e with
  | nil => rfl
  | cons hd rest ih =>
    obtain ⟨k, v⟩ := hd
    simp [_merge_entries, ih]

theorem buildStep_recognized (obj v : Json) (f : SourceFile)
    (hs : recognizedSuffix f.suffix) (hc : f.content = FileContent.parses v) :
    buildStep obj f = Except.ok (_merge_dicts obj v) := by
  rcases hs with h1 | h1 | h1 <;> simp [buildStep, hc, h1]

theorem buildLoop_all_mappings (files : List SourceFile)
    (h : ∀ f ∈ files, parsesToMapping f) :
    buildLoop (Json.obj []) files = Except.ok (Json.obj []) := by
  induction files with
  | nil => rfl
  | cons f rest ih =>
    obtain ⟨hs, entries, hc⟩ := h f (by simp)
    have hstep := buildStep_recognized (Json.obj []) (Json.obj entries) f hs hc
    have hmerge : _merge_dicts (Json.obj []) (Json.obj entries) = Json.obj [] := rfl
    rw [hmerge] at hstep
    simp only [buildLoop, hstep]
    exact ih (fun g hg => h g (by simp [hg]))

/-- Claim C1.  The spec's merge-precedence property fails on the code:
merging S1 = `{}` under the higher-precedence S2 = `{"a": 1}` yields `{}`,
which has no key `"a"` at all even though `"a"` is present in S2 — because
`_merge_dicts` iterates only over the base dict's keys, a key present only
in the higher-precedence source never reaches the result. -/
theorem merge_precedence_bug :
    mergedLookup
      [⟨"config1.json", ".json", .parses (.obj [])⟩,
       ⟨"config2.json", ".json", .parses (.obj [("a", Json.num 1)])⟩] "a" = some none ∧
    Json.lookup [("a", Json.num 1)] "a" = some (Json.num 1) := by
  exact ⟨rfl, rfl⟩

/-- Claim C2.  The second half of the claim fails on the code: a key present
only in the update mapping is not added.  Merging base `{"b": 2}` with
update `{"a": 1}` returns `{"b": 2}` with no key `"a"`. -/
theorem merge_update_only_key_bug :
    _merge_dicts (Json.obj [("b", Json.num 2)]) (Json.obj [("a", Json.num 1)]) =
      Json.obj [("b", Json.num 2)] ∧
    Json.lookup [("b", Json.num 2)] "a" = none := by
  exact ⟨rfl, rfl⟩

/-- Claim C4.  The spec's single-source identity fails on the code: a single
source parsing to `{"a": 1}` merges to `{}`, because the accumulator starts
as the empty dict and `_merge_dicts` keeps only the accumulator's keys. -/
theorem single_source_identity_bug :
    build_config_file [⟨"only.json", ".json", .parses (.obj [("a", Json.num 1)])⟩] =
      Except.ok (Json.obj []) ∧
    Json.obj [] ≠ Json.obj [("a", Json.num 1)] := by
  refine ⟨rfl, by simp⟩

/-- Claim C3.  For any two dict arguments, `_merge_dicts` returns a dict
whose keys are exactly the base (first) argument's keys; consequently an
invocation of `build_config_file` whose sources all parse to mappings
returns the empty mapping, and the empty mapping is what gets written to
the well-known config file. -/
theorem merge_keys_from_base_and_empty_build :
    (∀ e u : List (String × Json),
      (_merge_dicts (Json.obj e) (Json.obj u)).keys = (Json.obj e).keys) ∧
    (∀ files : List SourceFile, (∀ f ∈ files, parsesToMapping f) →
      build_config_file files = Except.ok (Json.obj []) ∧
      configWrites files = [Json.obj []]) := by
  constructor
  · intro e u
    simp [_merge_dicts, Json.keys, _merge_entries_keys]
  · intro files h
    have hb := buildLoop_all_mappings files h
    refine ⟨hb, ?_⟩
    unfold configWrites
    rw [hb]

/-- Witness for claim C3 at concrete inputs: base `{"b": 2}` merged with
update `{"c": 3}` keeps exactly key `"b"`, and building from the single
mapping source `w.yaml` returns the empty object. -/
theorem merge_keys_from_base_and_empty_build_witness :
    (_merge_dicts (Json.obj [("b", Json.num 2)]) (Json.obj [("c", Json.num 3)])).keys
      = ["b"] ∧
    build_config_file [⟨"w.yaml", ".yaml", FileContent.parses (Json.obj [("x", Json.null)])⟩]
      = Except.ok (Json.obj []) := by
  constructor
  · have h := merge_keys_from_base_and_empty_build.1 [("b", Json.num 2)] [("c", Json.num 3)]
    simpa [Json.keys] using h
  · exact (merge_keys_from_base_and_empty_build.2
      [⟨"w.yaml", ".yaml", FileContent.parses (Json.obj [("x", Json.null)])⟩]
      (by
        intro f hf
        simp only [List.mem_singleton] at hf
        subst hf
        exact ⟨Or.inr (Or.inl rfl), [("x", Json.null)], rfl⟩)).1

theorem wait_loop_eq (events : List WaitEvent) : ∀ sent : List Nat,
    wait_loop sent events =
      ⟨sent ++ List.replicate (interruptsBeforeExit events) SIGINT,
       if events.any WaitEvent.isChildExit then some 0 else none⟩ := by
  induction events with
  | nil => intro sent; simp [wait_loop, interruptsBeforeExit]
  | cons ev rest ih =>
    intro sent
    cases ev with
    | interrupt =>
      simp [wait_loop, interruptsBeforeExit, ih, WaitEvent.isChildExit,
        List.replicate_succ, List.append_assoc]
    | childExit code =>
      simp [wait_loop, interruptsBeforeExit, WaitEvent.isChildExit]

/-- Claim C5.  The wait loop of the shell-wrapped strategy, driven by any
sequence of events: the parent's exit status is `some 0` exactly when the
child exited during the wait and `none` otherwise (the parent never
terminates before the child does), and the signals sent to the child are
one `SIGINT` per interrupt the parent received before the child's exit,
after each of which the wait is re-entered. -/
theorem interrupt_forwarding (events : List WaitEvent) :
    wrap_with_shell_command events =
      ⟨List.replicate (interruptsBeforeExit events) SIGINT,
       if events.any WaitEvent.isChildExit then some 0 else none⟩ := by
  simpa using wait_loop_eq events []

/-- Claim C6.  Whenever the child exits — with any exit code, after any
number of forwarded interrupts, and whatever further events follow — the
parent terminates with exit status 0. -/
theorem parent_exits_zero (pre : List WaitEvent) (code : Int) (post : List WaitEvent) :
    (wrap_with_shell_command (pre ++ WaitEvent.childExit code :: post)).parentExit
      = some 0 := by
  rw [wrap_with_shell_command, wait_loop_eq]
  simp [WaitEvent.isChildExit]

/-- Claim C8.  Whenever `build_config_file` fails with any configuration
error (missing file, parse error, or unsupported extension), nothing is
written to the well-known config file. -/
theorem no_write_on_error (files : List SourceFile) (e : ConfigError)
    (h : build_config_file files = Except.error e) : configWrites files = [] := by
  unfold build_config_file at h
  unfold configWrites
  rw [h]

/-- Witness for claim C8: a missing `missing.json` makes the build fail and
nothing is written. -/
theorem no_write_on_error_witness :
    configWrites [⟨"missing.json", ".json", FileContent.missing⟩] = [] :=
  no_write_on_error _ (ConfigError.fileNotFound "missing.json") rfl

/-- Claim C7 counterexample.  First input: with sources `base.json` (merged
first) and `cfg.toml`, the build fails with the extension `ValueError`, but
the message does not contain the offending path `cfg.toml` — it identifies
only the extension.  Second input: a list containing an unrecognized-extension
source whose file is missing fails with `FileNotFoundError` instead, because
`path.open` runs before the extension is checked. -/
theorem unsupported_extension_counterexample :
    build_config_file
      [⟨"base.json", ".json", .parses (.obj [("a", Json.num 1)])⟩,
       ⟨"cfg.toml", ".toml", .parses (.obj [])⟩] =
      Except.error (.valueError (suffixErrorMsg ".toml")) ∧
    occursInChars "cfg.toml".data (suffixErrorMsg ".toml").data = false ∧
    build_config_file [⟨"cfg2.toml", ".toml", FileContent.missing⟩] =
      Except.error (.fileNotFound "cfg2.toml") := by
  refine ⟨rfl, by decide, rfl⟩

theorem buildLoop_unrecognized (f : SourceFile) (post : List SourceFile)
    (hs : ¬ recognizedSuffix f.suffix) (hc : f.content ≠ FileContent.missing) :
    ∀ pre : List SourceFile, (∀ g ∈ pre, mergeable g) → ∀ obj : Json,
      buildLoop obj (pre ++ f :: post) =
        Except.error (.valueError (suffixErrorMsg f.suffix)) := by
  intro pre
  induction pre with
  | nil =>
    intro _ obj
    unfold recognizedSuffix at hs
    push_neg at hs
    obtain ⟨h1, h2, h3⟩ := hs
    have hstep : buildStep obj f = Except.error (.valueError (suffixErrorMsg f.suffix)) := by
      cases hfc : f.content with
      | missing => exact absurd hfc hc
      | malformed => simp [buildStep, hfc, h1, h2, h3]
      | parses v => simp [buildStep, hfc, h1, h2, h3]
    simp [buildLoop, hstep]
  | cons g rest ih =>
    intro hpre obj
    obtain ⟨hgs, v, hgc⟩ := hpre g (by simp)
    have hstep := buildStep_recognized obj v g hgs hgc
    simp only [List.cons_append, buildLoop, hstep]
    exact ih (fun x hx => hpre x (by simp [hx])) _

/-- Claim C7, amended.  If a source with an unrecognized extension is reached
(every earlier source being present, of recognized extension, and
well-formed) and the offending file itself can be opened, the build fails
with the `ValueError` whose message names the offending extension (though
not the offending path), and nothing is written to the well-known config
file. -/
theorem unsupported_extension_amended (pre : List SourceFile) (f : SourceFile)
    (post : List SourceFile) (hpre : ∀ g ∈ pre, mergeable g)
    (hs : ¬ recognizedSuffix f.suffix) (hc : f.content ≠ FileContent.missing) :
    build_config_file (pre ++ f :: post) =
      Except.error (.valueError (suffixErrorMsg f.suffix)) ∧
    configWrites (pre ++ f :: post) = [] := by
  have hb := buildLoop_unrecognized f post hs hc pre hpre (Json.obj [])
  refine ⟨hb, ?_⟩
  unfold configWrites
  rw [hb]

/-- Witness for the amended claim C7: after the good source `ok.yml`, the
source `bad.ini` fails the build with the extension `ValueError` and nothing
is written. -/
theorem unsupported_extension_amended_witness :
    build_config_file
      [⟨"ok.yml", ".yml", FileContent.parses Json.null⟩,
       ⟨"bad.ini", ".ini", FileContent.parses (Json.obj [])⟩] =
      Except.error (.valueError (suffixErrorMsg ".ini")) ∧
    configWrites
      [⟨"ok.yml", ".yml", FileContent.parses Json.null⟩,
       ⟨"bad.ini", ".ini", FileContent.parses (Json.obj [])⟩] = [] :=
  unsupported_extension_amended
    [⟨"ok.yml", ".yml", FileContent.parses Json.null⟩]
    ⟨"bad.ini", ".ini", FileContent.parses (Json.obj [])⟩
    []
    (by
      intro g hg
      simp only [List.mem_singleton] at hg
      subst hg
      exact ⟨Or.inr (Or.inr rfl), Json.null, rfl⟩)
    (by decide)
    (fun h => FileContent.noConfusion h)

/-- Claim C10.  The dispatch of `run_script` does not depend only on the
`as_module` flag: with the flag set but no output file, the module runner is
given the resolved absolute path instead of the base name; with the flag
unset but an output file given, the path runner is given the bare base name
instead of the target path. -/
theorem run_script_dispatch_bug :
    (run_script ⟨"foo.py", "/abs/foo.py", "foo"⟩ [] none "w" true).runner
      = Runner.runModule ∧
    (run_script ⟨"foo.py", "/abs/foo.py", "foo"⟩ [] none "w" true).arg
      = "/abs/foo.py" ∧
    (PyPath.mk "foo.py" "/abs/foo.py" "foo").stem = "foo" ∧
    ("/abs/foo.py" : String) ≠ "foo" ∧
    (run_script ⟨"foo.py", "/abs/foo.py", "foo"⟩ []
        (some ⟨"out.txt", "/abs/out.txt", "out"⟩) "w" false).runner = Runner.runPath ∧
    (run_script ⟨"foo.py", "/abs/foo.py", "foo"⟩ []
        (some ⟨"out.txt", "/abs/out.txt", "out"⟩) "w" false).arg = "foo" ∧
    ("foo" : String) ≠ "foo.py" := by
  refine ⟨rfl, rfl, rfl, by decide, rfl, rfl, by decide⟩

theorem lookup_append (a b : List (String × Json)) (k : String) :
    Json.lookup (a ++ b) k =
      match Json.lookup a k with
      | some v => some v
      | none => Json.lookup b k := by
  induction a with
  | nil => rfl
  | cons e rest ih =>
    obtain ⟨k', v⟩ := e
    by_cases h : k' = k <;> simp [Json.lookup, h, ih]

theorem lookup_isSome_eq_any (d : List (String × Json)) (k : String) :
    (Json.lookup d k).isSome = d.any (fun e => decide (e.1 = k)) := by
  induction d with
  | nil => rfl
  | cons e rest ih =>
    obtain ⟨k', v⟩ := e
    by_cases h : k' = k <;> simp [Json.lookup, h, ih]

theorem lookup_map_set (d : List (String × Json)) (k : String) (v : Json) (k' : String) :
    Json.lookup (d.map (fun e => if e.1 = k then (e.1, v) else e)) k' =
      if k = k' then (Json.lookup d k).map (fun _ => v) else Json.lookup d k' := by
  induction d with
  | nil => simp [Json.lookup]
  | cons e rest ih =>
    obtain ⟨k0, v0⟩ := e
    have hhead : (if (k0, v0).1 = k then ((k0, v0).1, v) else (k0, v0))
        = if k0 = k then (k0, v) else (k0, v0) := by
      by_cases h : k0 = k <;> simp [h]
    rw [List.map_cons, hhead]
    by_cases h0 : k0 = k
    · subst h0
      rw [if_pos rfl]
      by_cases h1 : k0 = k'
      · subst h1
        simp [Json.lookup]
      · simp [Json.lookup, h1, ih]
    · rw [if_neg h0]
      have h0s : ¬(k = k0) := fun h => h0 h.symm
      by_cases h1 : k0 = k'
      · subst h1
        simp [Json.lookup, h0s]
      · simp [Json.lookup, h0, h1, ih]

theorem lookup_dictSet (d : List (String × Json)) (k : String) (v : Json) (k' : String) :
    Json.lookup (dictSet d k v) k' = if k = k' then some v else Json.lookup d k' := by
  unfold dictSet
  by_cases hany : d.any (fun e => decide (e.1 = k)) = true
  · rw [if_pos hany, lookup_map_set]
    by_cases hk : k = k'
    · subst hk
      rw [if_pos rfl, if_pos rfl]
      have hsome : (Json.lookup d k).isSome = true := by
        rw [lookup_isSome_eq_any]; exact hany
      obtain ⟨w, hw⟩ := Option.isSome_iff_exists.mp hsome
      rw [hw]
      rfl
    · rw [if_neg hk, if_neg hk]
  · rw [if_neg hany, lookup_append]
    rw [Bool.not_eq_true] at hany
    have hiso := lookup_isSome_eq_any d k
    rw [hany] at hiso
    have hnone : Json.lookup d k = none := by
      cases hl : Json.lookup d k with
      | none => rfl
      | some w => rw [hl] at hiso; simp at hiso
    by_cases hk : k = k'
    · subst hk
      rw [hnone]
      simp [Json.lookup]
    · cases hl : Json.lookup d k' with
      | some w => simp [hk]
      | none => simp [Json.lookup, hk]

theorem lookup_dictUpdate (kwargs : List (String × Json)) :
    ∀ (d : List (String × Json)) (k : String),
      Json.lookup (dictUpdate d kwargs) k =
        match lastLookup kwargs k with
        | some v => some v
        | none => Json.lookup d k := by
  induction kwargs with
  | nil => intro d k; rfl
  | cons e rest ih =>
    intro d k
    obtain ⟨k0, v0⟩ := e
    have hstep : dictUpdate d ((k0, v0) :: rest) = dictUpdate (dictSet d k0 v0) rest := rfl
    rw [hstep, ih]
    cases hl : lastLookup rest k with
    | some w => simp [lastLookup, hl]
    | none =>
      rw [lookup_dictSet]
      by_cases hk : k0 = k <;> simp [lastLookup, hl, hk]

/-- Claim C9.  The execution context built by `make_script_globals`: for
every target, name, keyword mapping and key, the value at that key is the
one assigned by the last occurrence of the key among the keyword arguments
when there is one (last-write-wins, single layer, no recursion), and the
default otherwise — the file identity is the resolved absolute path of the
target, the execution name is the given name (the definition defaults it to
`"__main__"`), and the package and cache markers are `None`. -/
theorem make_script_globals_spec (script : PyPath) (name : String)
    (kwargs : List (String × Json)) (k : String) :
    Json.lookup (make_script_globals script name kwargs) k =
      match lastLookup kwargs k with
      | some v => some v
      | none =>
        if k = "__file__" then some (Json.str script.resolvedStr)
        else if k = "__name__" then some (Json.str name)
        else if k = "__package__" then some Json.null
        else if k = "__cached__" then some Json.null
        else none := by
  unfold make_script_globals
  rw [lookup_dictUpdate]
  cases lastLookup kwargs k with
  | some w => rfl
  | none =>
    by_cases h1 : k = "__file__"
    · subst h1; rfl
    by_cases h2 : k = "__name__"
    · subst h2; rfl
    by_cases h3 : k = "__package__"
    · subst h3; rfl
    by_cases h4 : k = "__cached__"
    · subst h4; rfl
    simp [Json.lookup, h1, h2, h3, h4, Ne.symm h1, Ne.symm h2, Ne.symm h3, Ne.symm h4]
